import Mathlib

/-
  Verification of the virtual-media attachment state machine of the
  ironic-virtmedia-driver repository (Ampere FALCON vendor class and the
  OpenBMC base class).  Python functions from
  src/ironic_virtmedia_driver/vendors/ampere/falcon.py and
  src/ironic_virtmedia_driver/vendors/openbmc_hw.py are shallowly embedded
  as Lean functions.  The IPMI transport is modelled by oracles: the outcome
  of one raw-command send is `Option String` (`none` models a raised
  transport error, `some out` the command's stdout), and polling loops
  consume an oracle `Nat → Option String` indexed by the call number.
-/

set_option linter.unusedVariables false

namespace VirtMedia

/-! ## Python string and integer-parsing helpers -/

/-- Characters Python's `str.strip()` removes. -/
def isPySpace (c : Char) : Bool :=
  c == ' ' || c == '\t' || c == '\n' || c == '\r' || c == '\x0b' || c == '\x0c'

/-- Python `s.strip()` on a character list. -/
def pyStripList (l : List Char) : List Char :=
  ((l.dropWhile isPySpace).reverse.dropWhile isPySpace).reverse

/-- Python `s.strip()`. -/
def pyStrip (s : String) : String := ⟨pyStripList s.data⟩

/-- Python `s.replace('\n', '')`. -/
def removeNewlines (s : String) : String := ⟨s.data.filter (fun c => c ≠ '\n')⟩

/-- Value of a decimal digit character, `none` for non-digits. -/
def decDigitVal (c : Char) : Option Nat :=
  if '0' ≤ c ∧ c ≤ '9' then some (c.toNat - '0'.toNat) else none

/-- Value of a hexadecimal digit character, `none` for non-digits. -/
def hexDigitVal (c : Char) : Option Nat :=
  if '0' ≤ c ∧ c ≤ '9' then some (c.toNat - '0'.toNat)
  else if 'a' ≤ c ∧ c ≤ 'f' then some (c.toNat - 'a'.toNat + 10)
  else if 'A' ≤ c ∧ c ≤ 'F' then some (c.toNat - 'A'.toNat + 10)
  else none

/-- Accumulate digit values in the given base; `none` on a non-digit. -/
def digitsToNatAux (dval : Char → Option Nat) (base : Nat) :
    List Char → Nat → Option Nat
  | [], acc => some acc
  | c :: rest, acc =>
    match dval c with
    | none => none
    | some d => digitsToNatAux dval base rest (acc * base + d)

/-- Parse a non-empty all-digit string in the given base. -/
def digitsToNat (dval : Char → Option Nat) (base : Nat) : List Char → Option Nat
  | [] => none
  | c :: rest => digitsToNatAux dval base (c :: rest) 0

/-- Apply an optional leading `+`/`-` sign around a digit parser. -/
def signedOf (f : List Char → Option Nat) : List Char → Option Int
  | '+' :: rest => (f rest).map Int.ofNat
  | '-' :: rest => (f rest).map (fun n => -(n : Int))
  | l => (f l).map Int.ofNat

/-- Python `int(s)`: surrounding whitespace stripped, optional sign, then a
non-empty run of decimal digits; `none` models the `ValueError` raise. -/
def pyInt (s : String) : Option Int :=
  signedOf (digitsToNat decDigitVal 10) (pyStripList s.data)

/-- Body of a base-16 literal: an optional `0x`/`0X`, then hex digits. -/
def hexBody : List Char → Option Nat
  | '0' :: 'x' :: rest => digitsToNat hexDigitVal 16 rest
  | '0' :: 'X' :: rest => digitsToNat hexDigitVal 16 rest
  | l => digitsToNat hexDigitVal 16 l

/-- Python `int(s, 16)`: whitespace stripped, optional sign, optional `0x`
marker, then a non-empty run of hex digits; `none` models the raise. -/
def pyIntHex (s : String) : Option Int :=
  signedOf hexBody (pyStripList s.data)

/-- Python `s[a:b]` for `0 ≤ a ≤ b` (indices clamp on short strings). -/
def pySlice (s : String) (a b : Nat) : String := ⟨(s.data.drop a).take (b - a)⟩

/-- Success predicate of Python 2 `bytearray.fromhex`: the string must be a
sequence of two-hex-digit bytes, with spaces permitted between bytes only. -/
def fromhexOk : List Char → Bool
  | [] => true
  | ' ' :: rest => fromhexOk rest
  | c1 :: c2 :: rest => (hexDigitVal c1).isSome && (hexDigitVal c2).isSome && fromhexOk rest
  | [_] => false

/-! ## Command catalog constants of falcon.py (module-level globals) -/

def RAW_CHECK_NFS_SERVICE_STATUS : String := "0x32 0xd8 0x06 0x01 0x01 0x00"

def RAW_GET_VMEDIA_MOUNT_STATUS : String := "0x32 0xca 0x00"

def RAW_SET_VMEDIA_MOUNT_STATUS (s : String) : String := "0x32 0xcb 0x00 " ++ s

def RAW_GET_VMEDIA_STATUS : String := "0x32 0xca 0x08"

def RAW_SET_VMEDIA_STATUS (s : String) : String := "0x32 0xcb 0x08 " ++ s

def RAW_RESTART_VMEDIA : String := "0x32 0xcb 0x0a 0x01"

def RAW_SET_RIS_PROGRESS (s : String) : String := "0x32 0x9f 0x01 0x01 0x00 " ++ s

def RAW_SET_RIS_NFS_PATH (s : String) : String := "0x32 0x9f 0x01 0x01 0x01 " ++ s

def RAW_GET_MOUNTED_IMG_COUNT : String := "0x32 0xd8 0x00 0x01"

namespace FALCON

/-! ## FALCON.get_disk_attachment_status -/

/-- Embeds `FALCON.get_disk_attachment_status` (falcon.py lines 59-67).
`resp` is the outcome of sending RAW_CHECK_NFS_SERVICE_STATUS: `none` models
a raised transport error.  On success the source evaluates
`str(bytearray.fromhex(out.replace('\n', '').strip()))` inside the same
`try`; `fromhex` raises on malformed hex, landing in the same handler, and
`str(...)` cannot fail.  The function returns only the two strings
`"mounted"` and `"nfserror"`; it never produces `"mounting"`. -/
def get_disk_attachment_status (resp : Option String) : String :=
  match resp with
  | none => "nfserror"
  | some out =>
    if fromhexOk (pyStripList (removeNewlines out).data) then "mounted" else "nfserror"

/-! ## FALCON._get/_set_virtual_media_device_count -/

/-- Transport oracle for the slot-count primitive: whether the initiating
set command raises, and the stdout of the k-th readback get command
(`none` models a raised transport error on that readback). -/
structure SlotWorld where
  setRaises : Bool
  getOut : Nat → Option String

/-- Embeds `FALCON._get_virtual_media_device_count` (falcon.py lines 69-93)
for its k-th invocation.  For a known device type it sends the get command
and parses `int(out.strip())`; any exception (transport or parse) is caught
inside the function, which then implicitly returns Python `None` (modelled
`none`).  An unknown device type returns the initial value 0 without any
transport send. -/
def get_virtual_media_device_count (w : SlotWorld) (devicetype : String) (k : Nat) :
    Option Int :=
  if devicetype = "CD" ∨ devicetype = "FD" ∨ devicetype = "HD" then
    match w.getOut k with
    | none => none
    | some out => pyInt out
  else some 0

/-- Observable outcome of one `_set_virtual_media_device_count` call:
its return value, the number of set commands attempted through the
transport, and the number of readback get commands attempted. -/
structure SlotRun where
  result : Bool
  setsSent : Nat
  getsSent : Nat
deriving DecidableEq

/-- Embeds the confirmation loop of `_set_virtual_media_device_count`
(falcon.py lines 116-121): `while _conf_device_num != devicecount and
_tries > 0`, re-reading the count each iteration.  Arguments: remaining
tries, current read-back value, readbacks performed so far; returns the
total number of readbacks performed (the loop's exit discards the value:
the source returns True no matter how the loop ended). -/
def slotConfirmLoop (w : SlotWorld) (devicetype : String) (devicecount : Int) :
    Nat → Option Int → Nat → Nat
  | 0, _, k => k
  | t + 1, conf, k =>
    if conf = some devicecount then k
    else slotConfirmLoop w devicetype devicecount t
      (get_virtual_media_device_count w devicetype k) (k + 1)

/-- Embeds `FALCON._set_virtual_media_device_count` (falcon.py lines
96-126).  Out-of-range counts and device types other than CD/HD return
False before any transport send.  Otherwise the set command is sent (its
transport error is the only exception reachable inside the `try`, since
`_get_virtual_media_device_count` swallows its own exceptions, and is
caught, returning False); then an initial readback and a 40-try
confirmation loop run, and the source returns True regardless of whether
the loop ever confirmed the requested count. -/
def set_virtual_media_device_count (w : SlotWorld) (devicetype : String)
    (devicecount : Int) : SlotRun :=
  if ¬ (0 ≤ devicecount ∧ devicecount ≤ 4) then ⟨false, 0, 0⟩
  else if devicetype = "CD" ∨ devicetype = "HD" then
    if w.setRaises then ⟨false, 1, 0⟩
    else
      ⟨true, 1, slotConfirmLoop w devicetype devicecount 40
        (get_virtual_media_device_count w devicetype 0) 1⟩
  else ⟨false, 0, 0⟩

/-- Slot world in which the set command succeeds and every readback
returns "0": the requested count 1 is never confirmed. -/
def slotNeverMatch : SlotWorld := ⟨false, fun _ => some "0"⟩

/-! ## FALCON._check_virtual_media_started and _enable_virtual_media -/

/-- Transport oracle for the media-service operations: outcomes of the
enable send, the restart send, and of the k-th status read (had one been
sent). -/
structure EnableWorld where
  startOut : Option String
  restartOut : Option String
  statusOut : Nat → Option String

/-- The falcon module binds `RAW_GET_VMEDIA_STATUS` at line 37, but
`_check_virtual_media_started` (line 132) reads the name
`RAW_GET_VMEDIA_SERVICE_STATUS`, which is bound nowhere in the module (nor
imported): the global lookup fails, so this model of the lookup is `none`
(Python raises `NameError` at that line, before any transport send). -/
def falconGlobal_RAW_GET_VMEDIA_SERVICE_STATUS : Option String := none

/-- Embeds `FALCON._check_virtual_media_started` (falcon.py lines 128-139)
for its k-th invocation, returning its result and the raw commands it sent.
The `cmd = RAW_GET_VMEDIA_SERVICE_STATUS` assignment raises `NameError`
(undefined global), which the `except Exception` clause catches before
`send_raw` runs, so `service_status` stays `None` and the final comparison
`service_status == '01'` is False. -/
def check_virtual_media_started (w : EnableWorld) (k : Nat) : Bool × List String :=
  match falconGlobal_RAW_GET_VMEDIA_SERVICE_STATUS with
  | none => (false, [])
  | some cmd =>
    match w.statusOut k with
    | none => (false, [cmd])
    | some out => (pyStrip out == "01", [cmd])

/-- Embeds the 60-try confirmation loop of `_enable_virtual_media`
(falcon.py lines 191-196): re-check the service status each iteration,
returning True at the first positive check. -/
def enableCheckLoop (w : EnableWorld) : Nat → Nat → List String → Bool × List String
  | 0, _, tr => (false, tr)
  | t + 1, k, tr =>
    let c := check_virtual_media_started w k
    if c.1 then (true, tr ++ c.2)
    else enableCheckLoop w t (k + 1) (tr ++ c.2)

/-- Embeds `FALCON._enable_virtual_media` (falcon.py lines 180-199),
returning its result and the raw commands sent.  If the initial status
check reports running it returns True at once; otherwise it calls
`_start_virtual_media` (sends the enable command, swallowing transport
errors) and `_restart_virtual_media_service` (sends the restart command,
swallowing transport errors) and then polls the status check up to 60
times, returning False when the budget is exhausted. -/
def enable_virtual_media (w : EnableWorld) : Bool × List String :=
  let c0 := check_virtual_media_started w 0
  if c0.1 then (true, c0.2)
  else
    enableCheckLoop w 60 1 (c0.2 ++ [RAW_SET_VMEDIA_STATUS "0x01", RAW_RESTART_VMEDIA])

/-! ## FALCON._toggle_virtual_device -/

/-- Transport oracle for the mount-bit primitive: outcome of the set
command and of the k-th readback of RAW_GET_VMEDIA_MOUNT_STATUS. -/
structure ToggleWorld where
  setOut : Option String
  getOut : Nat → Option String

/-- How the confirmation loop of `_toggle_virtual_device` ended. -/
inductive ToggleExit
  | matched
  | exhausted
  | raised
deriving DecidableEq

/-- The status string `'01' if enabled else '00'` (falcon.py line 263). -/
def toggleStatus (enabled : Bool) : String := if enabled then "01" else "00"

/-- Embeds the confirmation loop of `_toggle_virtual_device` (falcon.py
lines 270-280): up to 60 readbacks of the mount status; a matching read
returns True from inside the loop; a raised transport error on a readback
propagates out of the loop into the function's `except` handler.  Returns
how the loop ended together with the number of readback sends attempted
(the raising attempt included). -/
def togglePollLoop (w : ToggleWorld) (status : String) : Nat → Nat → ToggleExit × Nat
  | 0, k => (ToggleExit.exhausted, k)
  | t + 1, k =>
    match w.getOut k with
    | none => (ToggleExit.raised, k + 1)
    | some out =>
      if pyStrip out = status then (ToggleExit.matched, k + 1)
      else togglePollLoop w status t (k + 1)

/-- Embeds `FALCON._toggle_virtual_device` (falcon.py lines 258-286),
returning its result together with the number of readback sends attempted.
The single `try` wraps both the set command and the whole polling loop;
any exception — the set's transport error or a readback's transport
error — is caught by the one `except` clause, after which control falls
through to `return False`.  Budget exhaustion also falls through to
`return False`; only a matching readback returns True. -/
def toggle_virtual_device (w : ToggleWorld) (enabled : Bool) : Bool × Nat :=
  match w.setOut with
  | none => (false, 0)
  | some _ =>
    match togglePollLoop w (toggleStatus enabled) 60 0 with
    | (ToggleExit.matched, k) => (true, k)
    | (ToggleExit.exhausted, k) => (false, k)
    | (ToggleExit.raised, k) => (false, k)

/-- Toggle world whose set command succeeds and whose very first readback
raises a transport error. -/
def toggleErrWorld : ToggleWorld := ⟨some "", fun _ => none⟩

/-- Toggle world whose set command succeeds, whose first readback answers
a non-matching "xx", and whose second readback raises a transport error. -/
def toggleErrWorldB : ToggleWorld :=
  ⟨some "", fun k => if k = 0 then some "xx" else none⟩

/-! ## FALCON._set_nfs_root_path -/

/-- Embeds the transport sends of `FALCON._set_nfs_root_path` (falcon.py
lines 219-243) on the no-exception path, in order.  The source reassigns
one local `cmd` before each of the first three sends (progress-flag clear,
progress-flag set, NFS-path write, with a 2s sleep after the second and
third sends, not modelled).  The fourth statement binds the second
progress-flag clear command to a different local, `md`, and then executes
`ipmitool.send_raw(task, cmd)` — with `cmd` still holding the NFS-path
command, which is therefore sent again. -/
def set_nfs_root_path_sends (path : String) : List String :=
  let cmd1 := RAW_SET_RIS_PROGRESS "0x00"
  let cmd2 := RAW_SET_RIS_PROGRESS "0x01"
  let cmd3 := RAW_SET_RIS_NFS_PATH path
  let md := RAW_SET_RIS_PROGRESS "0x00"
  [cmd1, cmd2, cmd3, cmd3]

/-! ## FALCON._get_mounted_image_count -/

/-- Embeds `FALCON._get_mounted_image_count` (falcon.py lines 294-305).
`resp` is the outcome of sending RAW_GET_MOUNTED_IMG_COUNT (`none` models
a raised transport error).  On success the source computes
`int(out.strip()[3:5], 16)`; both the transport error and the parse
`ValueError` are caught by the same handler, leaving the initial
`count = 0`.  Total by construction: every branch returns a value. -/
def get_mounted_image_count (resp : Option String) : Int :=
  match resp with
  | none => 0
  | some out =>
    match pyIntHex (pySlice (pyStrip out) 3 5) with
    | none => 0
    | some n => n

/-! ## FALCON.attach_virtual_cd -/

/-- The eight stages attach_virtual_cd runs, in source order (falcon.py
lines 355-392): `_enable_virtual_media`, `_toggle_virtual_device(True)`,
`_clear_ris_configuration`, `_set_setup_nfs`, `_restart_ris_cd`,
`_wait_for_mount_count`, `_set_image_name`,
`check_and_wait_for_cd_mounting`. -/
inductive Stage
  | enableMedia
  | toggleCD
  | clearRIS
  | setupNFS
  | restartRISCD
  | waitMountCount
  | setImageName
  | checkMounting
deriving DecidableEq

/-- The fixed stage order of `attach_virtual_cd`. -/
def attachOrder : List Stage :=
  [Stage.enableMedia, Stage.toggleCD, Stage.clearRIS, Stage.setupNFS,
   Stage.restartRISCD, Stage.waitMountCount, Stage.setImageName, Stage.checkMounting]

/-- Embeds `FALCON.attach_virtual_cd` (falcon.py lines 355-392) over an
oracle `o` giving each stage primitive's boolean outcome, returning the
attach result and the list of stages invoked, in invocation order.  Each
`if not <stage>(...): return False` of the source becomes one guard; the
final stage's result is returned directly. -/
def attach_virtual_cd (o : Stage → Bool) : Bool × List Stage :=
  if o Stage.enableMedia = false then (false, [Stage.enableMedia]) else
  if o Stage.toggleCD = false then (false, [Stage.enableMedia, Stage.toggleCD]) else
  if o Stage.clearRIS = false then
    (false, [Stage.enableMedia, Stage.toggleCD, Stage.clearRIS]) else
  if o Stage.setupNFS = false then
    (false, [Stage.enableMedia, Stage.toggleCD, Stage.clearRIS, Stage.setupNFS]) else
  if o Stage.restartRISCD = false then
    (false, [Stage.enableMedia, Stage.toggleCD, Stage.clearRIS, Stage.setupNFS,
             Stage.restartRISCD]) else
  if o Stage.waitMountCount = false then
    (false, [Stage.enableMedia, Stage.toggleCD, Stage.clearRIS, Stage.setupNFS,
             Stage.restartRISCD, Stage.waitMountCount]) else
  if o Stage.setImageName = false then
    (false, [Stage.enableMedia, Stage.toggleCD, Stage.clearRIS, Stage.setupNFS,
             Stage.restartRISCD, Stage.waitMountCount, Stage.setImageName]) else
  (o Stage.checkMounting, attachOrder)

/-- Modelled from the spec: run stages in the given fixed order, aborting
at the first stage whose outcome is failure without invoking any later
stage ("any primitive returning failure aborts the remaining sequence and
returns failure to the caller without attempting later stages").  Used as
the specification side of the refinement theorem for attach ordering. -/
def runStagesSpec (o : Stage → Bool) : List Stage → Bool × List Stage
  | [] => (true, [])
  | s :: rest =>
    if o s = false then (false, [s])
    else
      let r := runStagesSpec o rest
      (r.1, s :: r.2)

end FALCON

namespace OpenBMC

/-! ## OpenBMCIronicVirtMediaHW (openbmc_hw.py) -/

/-- Exceptions raised by the OpenBMC base-class code:
`exception.InstanceDeployFailure(reason=...)` and
`exception.IPMIFailure(cmd=...)`. -/
inductive Failure
  | instanceDeploy (reason : String)
  | ipmi (cmd : String)
deriving DecidableEq

/-- Oracle for the recovery controller: whether the `bmc reset cold`
command succeeds, and whether the k-th `bmc info` liveness attempt
succeeds. -/
structure BmcWorld where
  resetOk : Bool
  infoOk : Nat → Bool

/-- Embeds the liveness loop of `_issue_bmc_reset` (openbmc_hw.py lines
63-77): `sleep_count = 10; while sleep_count:` try `bmc info`, `break` on
success, else sleep 10s and decrement.  Arguments: current `sleep_count`
and attempt index; returns the final `sleep_count` and the number of
liveness attempts made. -/
def bmcInfoLoop (w : BmcWorld) : Nat → Nat → Nat × Nat
  | 0, k => (0, k)
  | sc + 1, k =>
    if w.infoOk k then (sc + 1, k + 1)
    else bmcInfoLoop w sc (k + 1)

/-- Embeds `OpenBMCIronicVirtMediaHW._issue_bmc_reset` (openbmc_hw.py
lines 47-81).  A failing `bmc reset cold` raises
`IPMIFailure(cmd='bmc reset cold')` at once.  Otherwise the liveness loop
runs; if it ends with `sleep_count` zero the source raises
`IPMIFailure(cmd='bmc reset')`, else the function returns normally (the
`Except.ok` value is the number of liveness attempts made). -/
def issue_bmc_reset (w : BmcWorld) : Except Failure Nat :=
  if w.resetOk = false then Except.error (Failure.ipmi "bmc reset cold")
  else
    let r := bmcInfoLoop w 10 0
    if r.1 = 0 then Except.error (Failure.ipmi "bmc reset")
    else Except.ok r.2

/-- Oracle for the mount-status check: the result of the k-th
`get_disk_attachment_status` call (a vendor method returning a status
string), plus the recovery controller's oracle. -/
structure MountWorld where
  status : Nat → String
  bmc : BmcWorld

/-- Embeds the wait loop of `_wait_for_cd_mounting` (openbmc_hw.py lines
85-89): `sleep_count = 10; while self.get_disk_attachment_status(task) ==
'mounting' and sleep_count:` decrement and sleep.  Python evaluates the
status read before testing `sleep_count`, so the read at `sleep_count = 0`
still happens.  Arguments: current `sleep_count` and status-call index;
returns the final `sleep_count` and the next status-call index. -/
def waitMountLoop (w : MountWorld) : Nat → Nat → Nat × Nat
  | 0, k => (0, k + 1)
  | sc + 1, k =>
    if w.status k = "mounting" then waitMountLoop w sc (k + 1)
    else (sc + 1, k + 1)

/-- Embeds `_wait_for_cd_mounting` (openbmc_hw.py lines 84-95) starting at
status-call index k.  If the loop ends with `sleep_count` nonzero the
source returns True.  Otherwise it calls `_issue_bmc_reset`, whose raise
propagates; if the reset returns normally, `_wait_for_cd_mounting` falls
off its end returning Python `None`, which its caller treats as falsy
(modelled `Except.ok false`). -/
def wait_for_cd_mounting (w : MountWorld) (k : Nat) : Except Failure Bool :=
  let r := waitMountLoop w 10 k
  if r.1 ≠ 0 then Except.ok true
  else
    match issue_bmc_reset w.bmc with
    | Except.error e => Except.error e
    | Except.ok _ => Except.ok false

/-- Embeds `check_and_wait_for_cd_mounting` (openbmc_hw.py lines 97-113).
One status read, then: `'mounting'` delegates to `_wait_for_cd_mounting`
(truthy → True, falsy → False); `'nfserror'` raises
`InstanceDeployFailure(reason='NFS mount failed!')`; `'mounted'` returns
True; any other status raises `InstanceDeployFailure` with the same
reason string (source line 113). -/
def check_and_wait_for_cd_mounting (w : MountWorld) : Except Failure Bool :=
  let mount_status := w.status 0
  if mount_status = "mounting" then
    match wait_for_cd_mounting w 1 with
    | Except.error e => Except.error e
    | Except.ok b => Except.ok b
  else if mount_status = "nfserror" then
    Except.error (Failure.instanceDeploy "NFS mount failed!")
  else if mount_status = "mounted" then Except.ok true
  else Except.error (Failure.instanceDeploy "NFS mount failed!")

/-- Mount world whose status reads all answer "nfserror". -/
def nfsErrorWorld : MountWorld := ⟨fun _ => "nfserror", ⟨true, fun _ => true⟩⟩

/-- Bmc world whose reset succeeds but whose liveness polls all fail. -/
def bmcDeadWorld : BmcWorld := ⟨true, fun _ => false⟩

end OpenBMC

/-- Mount world whose statuses are produced by
`FALCON.get_disk_attachment_status` over an all-erroring transport. -/
def falconErrMountWorld : OpenBMC.MountWorld :=
  ⟨fun _ => FALCON.get_disk_attachment_status none, ⟨true, fun _ => true⟩⟩

/-! ## Helper lemmas -/

/-- The 60-try status loop of `_enable_virtual_media` can never observe a
running service, because every `_check_virtual_media_started` call dies on
the undefined global before sending anything: the loop always exhausts its
budget with an unchanged trace. -/
theorem enableCheckLoop_never_started (w : FALCON.EnableWorld) :
    ∀ t k tr, FALCON.enableCheckLoop w t k tr = (false, tr) := by
  intro t
  induction t with
  | zero => intro k tr; rfl
  | succ t ih =>
    intro k tr
    simp [FALCON.enableCheckLoop, FALCON.check_virtual_media_started,
      FALCON.falconGlobal_RAW_GET_VMEDIA_SERVICE_STATUS, ih]

/-- If the first `j` readbacks of the mount-bit confirmation loop answer
without matching and readback `j` raises a transport error, the loop ends
`raised` after exactly `j + 1` readback attempts. -/
theorem togglePollLoop_raises (w : FALCON.ToggleWorld) (status : String) :
    ∀ j t k, j < t →
      (∀ i, i < j → ∃ out, w.getOut (k + i) = some out ∧ pyStrip out ≠ status) →
      w.getOut (k + j) = none →
      FALCON.togglePollLoop w status t k = (FALCON.ToggleExit.raised, k + j + 1) := by
  intro j
  induction j with
  | zero =>
    intro t k ht hpre herr
    cases t with
    | zero => omega
    | succ t =>
      have herr2 : w.getOut k = none := by simpa using herr
      simp [FALCON.togglePollLoop, herr2]
  | succ j ih =>
    intro t k ht hpre herr
    cases t with
    | zero => omega
    | succ t =>
      obtain ⟨out, hout, hne⟩ := hpre 0 (by omega)
      have hout2 : w.getOut k = some out := by simpa using hout
      have ihr := ih t (k + 1) (by omega)
        (fun i hi => by
          obtain ⟨o, ho, hn⟩ := hpre (i + 1) (by omega)
          exact ⟨o, by rwa [show k + (i + 1) = k + 1 + i by omega] at ho, hn⟩)
        (by rwa [show k + (j + 1) = k + 1 + j by omega] at herr)
      simp only [FALCON.togglePollLoop, hout2, if_neg hne, ihr, Prod.mk.injEq]
      exact ⟨trivial, by omega⟩

/-- If every liveness attempt in range fails, the `bmc info` loop runs its
`sleep_count` down to zero. -/
theorem bmcInfoLoop_allFail (w : OpenBMC.BmcWorld) :
    ∀ sc k, (∀ i, i < sc → w.infoOk (k + i) = false) →
      OpenBMC.bmcInfoLoop w sc k = (0, k + sc) := by
  intro sc
  induction sc with
  | zero => intro k h; rfl
  | succ sc ih =>
    intro k h
    have h0 : w.infoOk k = false := by simpa using h 0 (Nat.succ_pos _)
    have ih2 := ih (k + 1) (fun i hi => by
      have e : k + (i + 1) = k + 1 + i := by omega
      have := h (i + 1) (by omega)
      rwa [e] at this)
    simp only [OpenBMC.bmcInfoLoop, h0, ih2, Bool.false_eq_true, if_false,
      Prod.mk.injEq]
    exact ⟨trivial, by omega⟩

/-- If the first success of the liveness command is at attempt `j`, within
budget, the `bmc info` loop stops there with `sleep_count` still positive,
after exactly `j + 1` attempts. -/
theorem bmcInfoLoop_firstOk (w : OpenBMC.BmcWorld) :
    ∀ j sc k, j < sc → (∀ i, i < j → w.infoOk (k + i) = false) →
      w.infoOk (k + j) = true →
      OpenBMC.bmcInfoLoop w sc k = (sc - j, k + j + 1) := by
  intro j
  induction j with
  | zero =>
    intro sc k hsc hpre hj
    cases sc with
    | zero => omega
    | succ sc =>
      have hk : w.infoOk k = true := by simpa using hj
      simp [OpenBMC.bmcInfoLoop, hk]
  | succ j ih =>
    intro sc k hsc hpre hj
    cases sc with
    | zero => omega
    | succ sc =>
      have h0 : w.infoOk k = false := by simpa using hpre 0 (by omega)
      have ihr := ih sc (k + 1) (by omega)
        (fun i hi => by
          have e : k + (i + 1) = k + 1 + i := by omega
          have := hpre (i + 1) (by omega)
          rwa [e] at this)
        (by
          have e : k + (j + 1) = k + 1 + j := by omega
          rwa [e] at hj)
      simp only [OpenBMC.bmcInfoLoop, h0, ihr, Bool.false_eq_true, if_false,
        Prod.mk.injEq]
      exact ⟨by omega, by omega⟩

/-! ## Claim theorems -/

/-- C1 (code evaluated at the failing input): with device type CD, count 1,
a succeeding set command and a transport whose readbacks always answer "0"
(so the requested count is never confirmed), `_set_virtual_media_device_count`
returns True after 41 readback attempts (one initial read plus the 40-try
loop) — not False after 40 attempts as the claim states: the `while` loop's
outcome is discarded and the function falls through to `return True`. -/
theorem set_slot_count_unconfirmed_still_true :
    FALCON.set_virtual_media_device_count FALCON.slotNeverMatch "CD" 1 =
      ⟨true, 1, 41⟩ := rfl

/-- C2 (code evaluated at the failing input): for every transport oracle —
in particular one whose status reads would all report the service running —
`_enable_virtual_media` returns False, after sending exactly the enable and
restart commands and no status read.  `_check_virtual_media_started` dies on
the undefined global `RAW_GET_VMEDIA_SERVICE_STATUS` (NameError, caught by
its `except`) before any send, so it always reports not-running: the
short-circuit can never fire and the 60-try loop always exhausts. -/
theorem enable_virtual_media_always_fails (w : FALCON.EnableWorld) :
    FALCON.enable_virtual_media w =
      (false, [RAW_SET_VMEDIA_STATUS "0x01", RAW_RESTART_VMEDIA]) := by
  simp [FALCON.enable_virtual_media, FALCON.check_virtual_media_started,
    FALCON.falconGlobal_RAW_GET_VMEDIA_SERVICE_STATUS, enableCheckLoop_never_started]

/-- C3 counterexample: in a world whose set command succeeds and whose very
first mount-status readback raises a transport error, `_toggle_virtual_device`
returns failure after exactly 1 readback attempt — the polling does not
continue to the 60-attempt budget as the claim states. -/
theorem toggle_midpoll_error_cex :
    FALCON.toggle_virtual_device FALCON.toggleErrWorld true = (false, 1) ∧
      (1 : Nat) < 60 :=
  ⟨rfl, by omega⟩

/-- C3 (amended): a transport error on readback `j` of the confirmation
loop of `_toggle_virtual_device` (all earlier readbacks answering without
matching) propagates to the function's `except` handler and the primitive
returns failure immediately, after exactly `j + 1` readback attempts — the
mid-poll transport error is an immediate failure, not "treated as a
non-matching read"; only error-free non-matching reads keep polling. -/
theorem toggle_readback_error_fails_fast (w : FALCON.ToggleWorld) (enabled : Bool)
    (j : Nat) (hj : j < 60) (hset : ∃ o, w.setOut = some o)
    (hpre : ∀ i, i < j → ∃ out, w.getOut i = some out ∧
      pyStrip out ≠ FALCON.toggleStatus enabled)
    (herr : w.getOut j = none) :
    FALCON.toggle_virtual_device w enabled = (false, j + 1) := by
  obtain ⟨o, ho⟩ := hset
  have hl := togglePollLoop_raises w (FALCON.toggleStatus enabled) j 60 0 hj
    (fun i hi => by simpa using hpre i hi) (by simpa using herr)
  unfold FALCON.toggle_virtual_device
  rw [ho, hl]
  simp

/-- C3 witness: set succeeds, readback 0 answers a non-matching "xx",
readback 1 raises: failure after exactly 2 readback attempts. -/
theorem toggle_readback_error_fails_fast_witness :
    FALCON.toggle_virtual_device FALCON.toggleErrWorldB true = (false, 2) := by
  have hpre : ∀ i, i < 1 → ∃ out, FALCON.toggleErrWorldB.getOut i = some out ∧
      pyStrip out ≠ FALCON.toggleStatus true := by
    intro i hi
    have hi0 : i = 0 := by omega
    subst hi0
    exact ⟨"xx", rfl, by decide⟩
  exact toggle_readback_error_fails_fast FALCON.toggleErrWorldB true 1 (by omega)
    ⟨"", rfl⟩ hpre rfl

/-- C4: `attach_virtual_cd` runs its stages in exactly the fixed order
enable media service → enable CD device → clear remote-image config →
configure network share → restart remote-image CD service → wait for image
to appear → set image name → poll disk-attachment status, and any stage
returning failure makes it return failure without invoking any later stage:
for every assignment of stage outcomes it coincides, in result and in the
list of invoked stages, with running `attachOrder` under the abort-on-first-
failure discipline (`runStagesSpec`, modelled from the spec's words). -/
theorem attach_virtual_cd_fixed_order (o : FALCON.Stage → Bool) :
    FALCON.attach_virtual_cd o = FALCON.runStagesSpec o FALCON.attachOrder := by
  cases h1 : o FALCON.Stage.enableMedia <;>
  cases h2 : o FALCON.Stage.toggleCD <;>
  cases h3 : o FALCON.Stage.clearRIS <;>
  cases h4 : o FALCON.Stage.setupNFS <;>
  cases h5 : o FALCON.Stage.restartRISCD <;>
  cases h6 : o FALCON.Stage.waitMountCount <;>
  cases h7 : o FALCON.Stage.setImageName <;>
  cases h8 : o FALCON.Stage.checkMounting <;>
  simp [FALCON.attach_virtual_cd, FALCON.runStagesSpec, FALCON.attachOrder,
    h1, h2, h3, h4, h5, h6, h7, h8]

/-- C5 (code evaluated at the failing input): on a successful run,
`_set_nfs_root_path` sends progress-clear, progress-set, path-write and
then the path-write AGAIN — not a final progress-clear: the fourth
statement binds the clear command to the unused local `md` and re-sends
`cmd`, which still holds the path command.  The fourth command differs from
the progress-clear command, so the flag is left set and the path is written
twice. -/
theorem set_nfs_root_path_fourth_send_repeats_path :
    FALCON.set_nfs_root_path_sends "0x2f" =
      [RAW_SET_RIS_PROGRESS "0x00", RAW_SET_RIS_PROGRESS "0x01",
       RAW_SET_RIS_NFS_PATH "0x2f", RAW_SET_RIS_NFS_PATH "0x2f"] ∧
    RAW_SET_RIS_NFS_PATH "0x2f" ≠ RAW_SET_RIS_PROGRESS "0x00" :=
  ⟨rfl, by decide⟩

/-- C6: for every slot count outside 0-4 and for every device type other
than CD and HD (floppy included), `_set_virtual_media_device_count` returns
False having attempted no set command and no readback through the
transport. -/
theorem set_slot_count_rejects_invalid (w : FALCON.SlotWorld) (dt : String)
    (c : Int) (h : c < 0 ∨ 4 < c ∨ (dt ≠ "CD" ∧ dt ≠ "HD")) :
    FALCON.set_virtual_media_device_count w dt c = ⟨false, 0, 0⟩ := by
  unfold FALCON.set_virtual_media_device_count
  rcases h with h | h | ⟨h1, h2⟩
  · rw [if_pos (by omega)]
  · rw [if_pos (by omega)]
  · split
    · rfl
    · rw [if_neg (by simp [h1, h2])]

/-- C6 witness: count 5 with type CD is rejected without any transport
command. -/
theorem set_slot_count_rejects_invalid_witness :
    FALCON.set_virtual_media_device_count ⟨false, fun _ => none⟩ "CD" 5 =
      ⟨false, 0, 0⟩ :=
  set_slot_count_rejects_invalid ⟨false, fun _ => none⟩ "CD" 5
    (Or.inr (Or.inl (by omega)))

/-- C7: `_get_mounted_image_count` is total by construction and never
raises; it returns 0 on a transport error and whenever the fixed-offset
slice `out.strip()[3:5]` fails to parse as a base-16 integer, and returns
the parsed value exactly when the slice parses. -/
theorem get_mounted_image_count_total_spec (resp : Option String) :
    (resp = none → FALCON.get_mounted_image_count resp = 0) ∧
    (∀ out, resp = some out → pyIntHex (pySlice (pyStrip out) 3 5) = none →
      FALCON.get_mounted_image_count resp = 0) ∧
    (∀ out n, resp = some out → pyIntHex (pySlice (pyStrip out) 3 5) = some n →
      FALCON.get_mounted_image_count resp = n) := by
  refine ⟨fun h => by simp [h, FALCON.get_mounted_image_count], ?_, ?_⟩
  · intro out ho hp
    subst ho
    simp [FALCON.get_mounted_image_count, hp]
  · intro out n ho hp
    subst ho
    simp [FALCON.get_mounted_image_count, hp]

/-- C7 witness: a well-formed response "ab 1f 2c" parses at offset 3..5 as
hexadecimal 1f and the primitive returns 31. -/
theorem get_mounted_image_count_total_spec_witness :
    FALCON.get_mounted_image_count (some "ab 1f 2c") = 31 :=
  (get_mounted_image_count_total_spec (some "ab 1f 2c")).2.2 "ab 1f 2c" 31 rfl rfl

/-- C8: when the disk-attachment status read reports 'nfserror',
`check_and_wait_for_cd_mounting` raises
`InstanceDeployFailure('NFS mount failed!')` rather than returning a
boolean; and the budget-exhaustion outcome is distinct: with the status
stuck at 'mounting' and a BMC that resets and answers its first liveness
poll, the call goes through the BMC reset and returns boolean False, not
through the deploy-failure exception. -/
theorem check_nfserror_raises_deploy_failure (w : OpenBMC.MountWorld)
    (h : w.status 0 = "nfserror") :
    OpenBMC.check_and_wait_for_cd_mounting w =
      Except.error (OpenBMC.Failure.instanceDeploy "NFS mount failed!") ∧
    ∀ w2 : OpenBMC.MountWorld, (∀ k, w2.status k = "mounting") →
      w2.bmc.resetOk = true → w2.bmc.infoOk 0 = true →
      OpenBMC.check_and_wait_for_cd_mounting w2 = Except.ok false := by
  constructor
  · unfold OpenBMC.check_and_wait_for_cd_mounting
    rw [h]
    rfl
  · intro w2 hst hr hi
    have hwl : ∀ sc k, OpenBMC.waitMountLoop w2 sc k = (0, k + sc + 1) := by
      intro sc
      induction sc with
      | zero => intro k; rfl
      | succ sc ih =>
        intro k
        have step : OpenBMC.waitMountLoop w2 (sc + 1) k = (0, k + 1 + sc + 1) := by
          simp [OpenBMC.waitMountLoop, hst, ih (k + 1)]
        rw [step]
        simp only [Prod.mk.injEq]
        exact ⟨trivial, by omega⟩
    have hw : OpenBMC.wait_for_cd_mounting w2 1 = Except.ok false := by
      unfold OpenBMC.wait_for_cd_mounting OpenBMC.issue_bmc_reset
      rw [hwl 10 1, hr]
      simp [OpenBMC.bmcInfoLoop, hi]
    unfold OpenBMC.check_and_wait_for_cd_mounting
    rw [hst 0, hw]
    rfl

/-- C8 witness: with every status read answering 'nfserror', the check
raises the deploy failure. -/
theorem check_nfserror_raises_deploy_failure_witness :
    OpenBMC.check_and_wait_for_cd_mounting OpenBMC.nfsErrorWorld =
      Except.error (OpenBMC.Failure.instanceDeploy "NFS mount failed!") :=
  (check_nfserror_raises_deploy_failure OpenBMC.nfsErrorWorld rfl).1

/-- C9: after a successful cold reset, `_issue_bmc_reset` polls the
liveness command up to 10 times: if the first success is at attempt `j`
within the budget the call returns normally after exactly `j + 1` liveness
attempts, and if no attempt in the budget of 10 succeeds it raises
`IPMIFailure(cmd='bmc reset')`, the fatal controller-unresponsive error. -/
theorem issue_bmc_reset_liveness_budget (w : OpenBMC.BmcWorld)
    (hr : w.resetOk = true) :
    (∀ j, j < 10 → (∀ i, i < j → w.infoOk i = false) → w.infoOk j = true →
      OpenBMC.issue_bmc_reset w = Except.ok (j + 1)) ∧
    ((∀ i, i < 10 → w.infoOk i = false) →
      OpenBMC.issue_bmc_reset w =
        Except.error (OpenBMC.Failure.ipmi "bmc reset")) := by
  constructor
  · intro j hj hpre hjok
    have hb := bmcInfoLoop_firstOk w j 10 0 hj
      (fun i hi => by simpa using hpre i hi) (by simpa using hjok)
    unfold OpenBMC.issue_bmc_reset
    rw [hr, hb]
    have hne : ¬ ((10 - j, 0 + j + 1).1 = 0) := by
      simp only []
      omega
    rw [if_neg (by simp), if_neg hne]
    simp
  · intro hall
    have hb := bmcInfoLoop_allFail w 10 0 (fun i hi => by simpa using hall i hi)
    unfold OpenBMC.issue_bmc_reset
    rw [hr, hb]
    simp

/-- C9 witness: reset succeeds but no liveness poll ever answers: the call
raises the fatal IPMI failure. -/
theorem issue_bmc_reset_liveness_budget_witness :
    OpenBMC.issue_bmc_reset OpenBMC.bmcDeadWorld =
      Except.error (OpenBMC.Failure.ipmi "bmc reset") :=
  (issue_bmc_reset_liveness_budget OpenBMC.bmcDeadWorld rfl).2 (fun i hi => rfl)

/-- C10: `FALCON.get_disk_attachment_status` returns 'mounted' exactly when
the NFS-status command succeeds and its output parses as hex bytes, and
'nfserror' in every other case — never 'mounting'; hence in a FALCON attach,
`check_and_wait_for_cd_mounting` over statuses produced by this function
never enters the 'mounting' wait loop or the BMC-reset branch: its result
is decided by the first status read alone, as success for 'mounted' and the
deploy-failure exception otherwise. -/
theorem falcon_attach_status_never_mounting (resp : Nat → Option String)
    (w : OpenBMC.MountWorld)
    (hw : ∀ k, w.status k = FALCON.get_disk_attachment_status (resp k)) :
    (∀ k, w.status k ≠ "mounting") ∧
    (∀ k, w.status k = "mounted" ∨ w.status k = "nfserror") ∧
    (∀ k, resp k = none → w.status k = "nfserror") ∧
    (∀ k out, resp k = some out →
      (fromhexOk (pyStripList (removeNewlines out).data) = true →
        w.status k = "mounted") ∧
      (fromhexOk (pyStripList (removeNewlines out).data) = false →
        w.status k = "nfserror")) ∧
    (w.status 0 = "mounted" →
      OpenBMC.check_and_wait_for_cd_mounting w = Except.ok true) ∧
    (w.status 0 ≠ "mounted" →
      OpenBMC.check_and_wait_for_cd_mounting w =
        Except.error (OpenBMC.Failure.instanceDeploy "NFS mount failed!")) := by
  have hms : ∀ k, w.status k = "mounted" ∨ w.status k = "nfserror" := by
    intro k
    rw [hw k]
    unfold FALCON.get_disk_attachment_status
    cases resp k with
    | none => exact Or.inr rfl
    | some out =>
      by_cases hfh : fromhexOk (pyStripList (removeNewlines out).data) = true
      · exact Or.inl (by simp [hfh])
      · exact Or.inr (by simp [hfh])
  refine ⟨?_, hms, ?_, ?_, ?_, ?_⟩
  · intro k
    rcases hms k with h | h <;> rw [h] <;> decide
  · intro k hk
    rw [hw k, hk]
    rfl
  · intro k out hk
    constructor
    · intro hfh
      rw [hw k, hk]
      unfold FALCON.get_disk_attachment_status
      simp [hfh]
    · intro hfh
      rw [hw k, hk]
      unfold FALCON.get_disk_attachment_status
      simp [hfh]
  · intro h0
    unfold OpenBMC.check_and_wait_for_cd_mounting
    rw [h0]
    rfl
  · intro h0
    have h0e : w.status 0 = "nfserror" := by
      rcases hms 0 with h | h
      · exact absurd h h0
      · exact h
    unfold OpenBMC.check_and_wait_for_cd_mounting
    rw [h0e]
    rfl

/-- C10 witness: with an always-erroring transport every status is
'nfserror' and the check raises the deploy failure. -/
theorem falcon_attach_status_never_mounting_witness :
    OpenBMC.check_and_wait_for_cd_mounting falconErrMountWorld =
      Except.error (OpenBMC.Failure.instanceDeploy "NFS mount failed!") :=
  (falcon_attach_status_never_mounting (fun _ => none) falconErrMountWorld
    (fun k => rfl)).2.2.2.2.2 (by decide)

end VirtMedia
